import Mathlib

/-!
Verification of the pitstop client controller (types/pitstop.ts,
api/pitstopClient.ts, pages/PitstopPage.tsx) against its specification.

Statuses and stages arrive from the backend as strings; the embedding keeps
them as `Option String` where the TypeScript declares them possibly
undefined, and mirrors JavaScript truthiness tests (`!status` is true for
both `undefined` and the empty string).
-/

/-- UI-level job status, from the `UIJobStatus` union in types/pitstop.ts. -/
inductive UIJobStatus
  | idle
  | uploading
  | queued
  | processing
  | rendering
  | complete
  | failed
deriving DecidableEq, Repr

/-- Embedding of `mapBackendToUIStatus` from types/pitstop.ts.  The argument
`status` is `PitstopJobStatus | undefined`; the guard `if (!status)` in the
source is JavaScript falsiness, true for `undefined` and for the empty
string, and the switch has a `default` arm returning `idle`. -/
def mapBackendToUIStatus (status : Option String) (stage : Option String) : UIJobStatus :=
  match status with
  | none => .idle
  | some s =>
    if s = "" then .idle
    else if s = "QUEUED" then .queued
    else if s = "PROCESSING" then
      if stage = some "RENDERING" then .rendering else .processing
    else if s = "COMPLETE" then .complete
    else if s = "FAILED" then .failed
    else .idle

/-- Embedding of `getStepFromBackend` from types/pitstop.ts.  Same falsiness
guard as `mapBackendToUIStatus`; COMPLETE yields 5 (past the last step) and
FAILED yields -1, with a `default` arm returning -1. -/
def getStepFromBackend (status : Option String) (stage : Option String) : Int :=
  match status with
  | none => -1
  | some s =>
    if s = "" then -1
    else if s = "QUEUED" then
      if stage = some "UPLOAD" then 0 else 1
    else if s = "PROCESSING" then
      if stage = some "DETECTING" ∨ stage = some "TRACKING" then 2
      else if stage = some "RENDERING" then 3
      else 2
    else if s = "COMPLETE" then 5
    else if s = "FAILED" then -1
    else -1

/-- C1: all seven rows of the §4.3 projection table hold of
`mapBackendToUIStatus` and `getStepFromBackend`: absent status gives
(idle, -1); QUEUED with stage UPLOAD gives (queued, 0); QUEUED with any
other stage gives (queued, 1); PROCESSING with stage RENDERING gives
(rendering, 3); PROCESSING with any other stage gives (processing, 2);
COMPLETE with any stage gives (complete, 5); FAILED with any stage gives
(failed, -1). -/
theorem projection_table_holds :
    (∀ stage, mapBackendToUIStatus none stage = .idle ∧
      getStepFromBackend none stage = -1) ∧
    (mapBackendToUIStatus (some "QUEUED") (some "UPLOAD") = .queued ∧
      getStepFromBackend (some "QUEUED") (some "UPLOAD") = 0) ∧
    (∀ stage, stage ≠ some "UPLOAD" →
      mapBackendToUIStatus (some "QUEUED") stage = .queued ∧
      getStepFromBackend (some "QUEUED") stage = 1) ∧
    (mapBackendToUIStatus (some "PROCESSING") (some "RENDERING") = .rendering ∧
      getStepFromBackend (some "PROCESSING") (some "RENDERING") = 3) ∧
    (∀ stage, stage ≠ some "RENDERING" →
      mapBackendToUIStatus (some "PROCESSING") stage = .processing ∧
      getStepFromBackend (some "PROCESSING") stage = 2) ∧
    (∀ stage, mapBackendToUIStatus (some "COMPLETE") stage = .complete ∧
      getStepFromBackend (some "COMPLETE") stage = 5) ∧
    (∀ stage, mapBackendToUIStatus (some "FAILED") stage = .failed ∧
      getStepFromBackend (some "FAILED") stage = -1) := by
  refine ⟨fun stage => ⟨rfl, rfl⟩, ⟨rfl, rfl⟩, ?_, ⟨rfl, rfl⟩, ?_, ?_, ?_⟩
  · intro stage h
    constructor
    · simp [mapBackendToUIStatus]
    · simp [getStepFromBackend, h]
  · intro stage h
    constructor
    · simp [mapBackendToUIStatus, h]
    · rcases stage with _ | s
      · simp [getStepFromBackend]
      · by_cases hd : s = "DETECTING"
        · simp [getStepFromBackend, hd]
        · by_cases ht : s = "TRACKING"
          · simp [getStepFromBackend, ht]
          · have hr : (some s : Option String) ≠ some "RENDERING" := h
            simp [getStepFromBackend, hd, ht] at h ⊢
            simp [h]
  · intro stage; exact ⟨rfl, rfl⟩
  · intro stage; exact ⟨rfl, rfl⟩

/-- C1 witness at concrete stages for the quantified rows. -/
theorem projection_table_holds_witness :
    mapBackendToUIStatus (some "QUEUED") (some "DETECTING") = .queued ∧
    getStepFromBackend (some "QUEUED") (some "DETECTING") = 1 ∧
    mapBackendToUIStatus (some "PROCESSING") (some "TRACKING") = .processing ∧
    getStepFromBackend (some "PROCESSING") (some "TRACKING") = 2 := by
  have h := projection_table_holds
  refine ⟨(h.2.2.1 (some "DETECTING") (by decide)).1,
          (h.2.2.1 (some "DETECTING") (by decide)).2,
          (h.2.2.2.2.1 (some "TRACKING") (by decide)).1,
          (h.2.2.2.2.1 (some "TRACKING") (by decide)).2⟩

/-- C9: for every status value outside the four known backend statuses
(including undefined), `mapBackendToUIStatus` returns idle and
`getStepFromBackend` returns -1; the step is always one of
-1, 0, 1, 2, 3, 5, and in particular never 4. -/
theorem projection_total_default_idle :
    (∀ status stage, status ≠ some "QUEUED" → status ≠ some "PROCESSING" →
      status ≠ some "COMPLETE" → status ≠ some "FAILED" →
      mapBackendToUIStatus status stage = .idle ∧
      getStepFromBackend status stage = -1) ∧
    (∀ status stage, getStepFromBackend status stage = -1 ∨
      getStepFromBackend status stage = 0 ∨
      getStepFromBackend status stage = 1 ∨
      getStepFromBackend status stage = 2 ∨
      getStepFromBackend status stage = 3 ∨
      getStepFromBackend status stage = 5) ∧
    (∀ status stage, getStepFromBackend status stage ≠ 4) := by
  have hstep : ∀ status stage, getStepFromBackend status stage = -1 ∨
      getStepFromBackend status stage = 0 ∨
      getStepFromBackend status stage = 1 ∨
      getStepFromBackend status stage = 2 ∨
      getStepFromBackend status stage = 3 ∨
      getStepFromBackend status stage = 5 := by
    intro status stage
    rcases status with _ | s
    · left; rfl
    · unfold getStepFromBackend
      by_cases h0 : s = ""
      · simp [h0]
      · by_cases h1 : s = "QUEUED"
        · by_cases hu : stage = some "UPLOAD" <;> simp [h0, h1, hu]
        · by_cases h2 : s = "PROCESSING"
          · by_cases hd : stage = some "DETECTING" ∨ stage = some "TRACKING"
            · simp [h0, h1, h2, hd]
            · by_cases hr : stage = some "RENDERING" <;> simp [h0, h1, h2, hd, hr]
          · by_cases h3 : s = "COMPLETE"
            · simp [h0, h1, h2, h3]
            · by_cases h4 : s = "FAILED" <;> simp [h0, h1, h2, h3, h4]
  refine ⟨?_, hstep, ?_⟩
  · intro status stage hq hp hc hf
    rcases status with _ | s
    · exact ⟨rfl, rfl⟩
    · have hq' : s ≠ "QUEUED" := fun h => hq (by simp [h])
      have hp' : s ≠ "PROCESSING" := fun h => hp (by simp [h])
      have hc' : s ≠ "COMPLETE" := fun h => hc (by simp [h])
      have hf' : s ≠ "FAILED" := fun h => hf (by simp [h])
      constructor
      · unfold mapBackendToUIStatus
        by_cases h0 : s = "" <;> simp [h0, hq', hp', hc', hf']
      · unfold getStepFromBackend
        by_cases h0 : s = "" <;> simp [h0, hq', hp', hc', hf']
  · intro status stage h4
    rcases hstep status stage with h | h | h | h | h | h <;> rw [h] at h4 <;> exact absurd h4 (by decide)

/-- C9 witness: an unknown status string maps to (idle, -1), and the step
there is in the allowed set and is not 4. -/
theorem projection_total_default_idle_witness :
    mapBackendToUIStatus (some "BOGUS") none = .idle ∧
    getStepFromBackend (some "BOGUS") none = -1 ∧
    getStepFromBackend (some "BOGUS") none ≠ 4 := by
  have h := projection_total_default_idle
  have h1 := h.1 (some "BOGUS") none (by decide) (by decide) (by decide) (by decide)
  exact ⟨h1.1, h1.2, h.2.2 (some "BOGUS") none⟩

/-- Full job record from GET /jobs/id, from the `PitstopJob` interface in
types/pitstop.ts (fields the controller reads). -/
structure PitstopJob where
  job_id : String
  status : String
  stage : Option String
  progress : Option ℚ
  logs : Option (List String)
deriving DecidableEq, Repr

/-- List item from GET /jobs, from `PitstopJobListItem` in types/pitstop.ts
(fields the controller reads). -/
structure PitstopJobListItem where
  job_id : String
  status : String
  has_output : Bool
deriving DecidableEq, Repr

/-- Base URL of the pitstop API, from `PITSTOP_API_BASE` in
api/pitstopClient.ts (the default without the env override). -/
def PITSTOP_API_BASE : String := "http://localhost:8000"

/-- Embedding of `getOutputUrl` from api/pitstopClient.ts. -/
def getOutputUrl (jobId : String) : String :=
  PITSTOP_API_BASE ++ "/api/pitstop/jobs/" ++ jobId ++ "/output"

/-- Observable side effects of the controller operations: browser timer
calls, blob URL lifecycle calls, and network requests. -/
inductive Effect
  | clearIntervalE (id : Nat)
  | setIntervalE (id : Nat)
  | createObjectURL (id : Nat)
  | revokeObjectURL (id : Nat)
  | netGetJob (jobId : String)
  | netGetJobs (limit offset : Nat)
  | netGetOutput (jobId : String)
deriving DecidableEq, Repr

/-- State of the PitstopPage controller: the useState/useRef cells of
PitstopPage.tsx, plus bookkeeping for allocated timer and blob-URL
identities (`liveIntervals` holds intervals created and not yet cleared,
`liveBlobUrls` holds output blob URLs created and not yet revoked). -/
structure ControllerState where
  file : Option String
  fileUrl : Option Nat
  jobId : Option String
  job : Option PitstopJob
  status : UIJobStatus
  progress : ℚ
  logs : List String
  error : Option String
  outputUrl : Option String
  outputBlobUrl : Option Nat
  isLoadingOutput : Bool
  runHistory : List PitstopJobListItem
  isLoadingHistory : Bool
  loadingJobId : Option String
  page : Nat
  rowsPerPage : Nat
  totalJobs : Nat
  pollIntervalRef : Option Nat
  liveIntervals : List Nat
  nextIntervalId : Nat
  liveBlobUrls : List Nat
  nextBlobId : Nat
deriving DecidableEq, Repr

/-- Embedding of `stopPolling` from PitstopPage.tsx: if the interval ref is
set, clear that interval and null the ref; otherwise do nothing. -/
def stopPolling (s : ControllerState) : ControllerState × List Effect :=
  match s.pollIntervalRef with
  | some i =>
      ({ s with pollIntervalRef := none, liveIntervals := s.liveIntervals.erase i },
       [.clearIntervalE i])
  | none => (s, [])

/-- Embedding of `cleanupBlobUrls` from PitstopPage.tsx: if an output blob
URL is held, revoke it and null the cell; otherwise do nothing. -/
def cleanupBlobUrls (s : ControllerState) : ControllerState × List Effect :=
  match s.outputBlobUrl with
  | some u =>
      ({ s with outputBlobUrl := none, liveBlobUrls := s.liveBlobUrls.erase u },
       [.revokeObjectURL u])
  | none => (s, [])

/-- Embedding of `fetchOutputAsBlob` from PitstopPage.tsx.  `res` is the
outcome of the output fetch (error carries the thrown message).  On
success the old blob URL, if any, is revoked, then a fresh blob URL is
created and stored; on failure the error cell is set.  Either way the
loading flag ends false. -/
def fetchOutputAsBlob (id : String) (res : Except String Unit)
    (s : ControllerState) : ControllerState × List Effect :=
  match res with
  | .error msg =>
      ({ s with isLoadingOutput := false, error := some msg }, [.netGetOutput id])
  | .ok _ =>
      let revoked := match s.outputBlobUrl with
        | some u => ({ s with liveBlobUrls := s.liveBlobUrls.erase u },
                     [Effect.revokeObjectURL u])
        | none => (s, ([] : List Effect))
      let s1 := revoked.1
      let b := s1.nextBlobId
      ({ s1 with outputBlobUrl := some b, liveBlobUrls := s1.liveBlobUrls ++ [b],
                 nextBlobId := b + 1, isLoadingOutput := false },
       [Effect.netGetOutput id] ++ revoked.2 ++ [Effect.createObjectURL b])

/-- Snapshot application block of `pollJobStatus` (PitstopPage.tsx lines
215 to 229): store the fetched job, derive the UI status, and update
progress and logs when the snapshot carries them (logs only when
non-empty). -/
def applySnapshot (jobData : PitstopJob) (s : ControllerState) : ControllerState :=
  let s1 := { s with job := some jobData, status := mapBackendToUIStatus (some jobData.status) jobData.stage }
  let s2 := match jobData.progress with
    | some p => { s1 with progress := p * 100 }
    | none => s1
  match jobData.logs with
  | some ls => if 0 < ls.length then { s2 with logs := ls } else s2
  | none => s2

/-- Embedding of one tick of `pollJobStatus` from PitstopPage.tsx.
`fetchRes` is the outcome of `getJob id`; `blobRes` is the outcome of the
output fetch used only when the job is COMPLETE.  On fetch error the error
cell is set and polling stops.  On success the job, UI status, progress and
logs are updated; COMPLETE additionally sets the output URL, forces
progress 100, stops polling and fetches the output blob, while FAILED sets
the error cell and stops polling. -/
def pollJobStatus (id : String) (fetchRes : Except String PitstopJob)
    (blobRes : Except String Unit) (s : ControllerState) :
    ControllerState × List Effect :=
  match fetchRes with
  | .error msg =>
      let stopped := stopPolling { s with error := some msg }
      (stopped.1, [Effect.netGetJob id] ++ stopped.2)
  | .ok jobData =>
      let s3 := applySnapshot jobData s
      if jobData.status = "COMPLETE" then
        let s4 := { s3 with outputUrl := some (getOutputUrl id), progress := 100 }
        let stopped := stopPolling s4
        let fetched := fetchOutputAsBlob id blobRes stopped.1
        (fetched.1, [Effect.netGetJob id] ++ stopped.2 ++ fetched.2)
      else if jobData.status = "FAILED" then
        let s4 := { s3 with error := some "Job processing failed. Check logs for details." }
        let stopped := stopPolling s4
        (stopped.1, [Effect.netGetJob id] ++ stopped.2)
      else
        (s3, [Effect.netGetJob id])

/-- Embedding of `startPolling` from PitstopPage.tsx: run one immediate
poll, then install a fresh interval in the ref.  Note the source does not
clear a previously installed interval here. -/
def startPolling (id : String) (fetchRes : Except String PitstopJob)
    (blobRes : Except String Unit) (s : ControllerState) :
    ControllerState × List Effect :=
  let polled := pollJobStatus id fetchRes blobRes s
  let n := polled.1.nextIntervalId
  ({ polled.1 with pollIntervalRef := some n,
                   liveIntervals := polled.1.liveIntervals ++ [n],
                   nextIntervalId := n + 1 },
   polled.2 ++ [Effect.setIntervalE n])

/-- State replacement performed by `handleLoadJob` on a successfully
fetched full job (PitstopPage.tsx lines 376 to 384): the selected file and
its URL are dropped, the loaded job installed with status derived from its
fields, progress scaled (defaulting to 100 when absent), logs defaulted
when absent, the output URL set and the error cleared. -/
def loadedUpdate (hj : PitstopJobListItem) (fullJob : PitstopJob) (x : ControllerState) : ControllerState :=
  { x with file := none, fileUrl := none, jobId := some hj.job_id, job := some fullJob, status := mapBackendToUIStatus (some fullJob.status) fullJob.stage, progress := (match fullJob.progress with | some p => p * 100 | none => 100), logs := (match fullJob.logs with | some ls => ls | none => ["[INFO] Loaded from run history"]), outputUrl := some (getOutputUrl hj.job_id), error := none }

/-- Embedding of `handleLoadJob` from PitstopPage.tsx.  A summary that is
not COMPLETE or has no output returns immediately with no effects.
Otherwise the loading marker is set, polling is stopped, the old output
blob URL is released, the full job is fetched; on success the controller
state is replaced by the loaded job (status derived from its fields, logs
defaulted when absent) and the output blob is fetched; on failure the
error cell is set.  Either way the loading marker ends cleared. -/
def handleLoadJob (hj : PitstopJobListItem) (fetchRes : Except String PitstopJob)
    (blobRes : Except String Unit) (s : ControllerState) :
    ControllerState × List Effect :=
  if hj.status ≠ "COMPLETE" ∨ hj.has_output = false then (s, [])
  else
    let s1 := { s with loadingJobId := some hj.job_id }
    let stopped := stopPolling s1
    let cleaned := cleanupBlobUrls stopped.1
    match fetchRes with
    | .error msg =>
        ({ cleaned.1 with error := some msg, loadingJobId := none },
         stopped.2 ++ cleaned.2 ++ [Effect.netGetJob hj.job_id])
    | .ok fullJob =>
        let s2 := loadedUpdate hj fullJob cleaned.1
        let fetched := fetchOutputAsBlob hj.job_id blobRes s2
        ({ fetched.1 with loadingJobId := none },
         stopped.2 ++ cleaned.2 ++ [Effect.netGetJob hj.job_id] ++ fetched.2)

/-- Embedding of `fetchRunHistory` from PitstopPage.tsx.  `res` is the
outcome of `getJobs perPage offset`.  The offset is (pageNum - 1) *
perPage; on success the window items and total are replaced by the
response; on failure nothing else changes (the error is only logged to the
console); the loading flag ends false either way. -/
def fetchRunHistory (pageNum perPage : Nat)
    (res : Except String (List PitstopJobListItem × Nat))
    (s : ControllerState) : ControllerState × List Effect :=
  let offset := (pageNum - 1) * perPage
  match res with
  | .ok r =>
      ({ s with runHistory := r.1, totalJobs := r.2, isLoadingHistory := false },
       [Effect.netGetJobs perPage offset])
  | .error _ =>
      ({ s with isLoadingHistory := false }, [Effect.netGetJobs perPage offset])

/-- Embedding of `handleRowsPerPageChange` from PitstopPage.tsx: store the
new page size and reset the page to 1. -/
def handleRowsPerPageChange (newRowsPerPage : Nat) (s : ControllerState) : ControllerState :=
  { s with rowsPerPage := newRowsPerPage, page := 1 }

/-- Embedding of `handlePageChange` from PitstopPage.tsx. -/
def handlePageChange (newPage : Nat) (s : ControllerState) : ControllerState :=
  { s with page := newPage }

/-- Model of an HTTP response to POST /jobs as `createJob` in
api/pitstopClient.ts reads it: `errorDetail` is the `detail` field of the
parsed error body (`none` when the field is absent or the body is not
JSON), `job` the parsed success body. -/
structure HttpResponse where
  ok : Bool
  statusCode : Nat
  statusText : String
  errorDetail : Option String
  job : PitstopJob
deriving DecidableEq, Repr

/-- Error message built by `createJob` on a non-2xx response:
`errorData.detail || Upload failed: status statusText` in the source.
JavaScript `||` falls through on falsy values, so an empty-string detail
also yields the generic message. -/
def createJobErrorMessage (detail : Option String) (statusCode : Nat)
    (statusText : String) : String :=
  let generic := "Upload failed: " ++ toString statusCode ++ " " ++ statusText
  match detail with
  | some d => if d = "" then generic else d
  | none => generic

/-- Embedding of `createJob` from api/pitstopClient.ts: a 2xx response
yields the parsed job, a non-2xx response throws the message built by
`createJobErrorMessage`. -/
def createJob (resp : HttpResponse) : Except String PitstopJob :=
  if resp.ok then .ok resp.job
  else .error (createJobErrorMessage resp.errorDetail resp.statusCode resp.statusText)

/-- Count of createObjectURL effects in a trace. -/
def countCreateObjectURL (es : List Effect) : Nat :=
  (es.filter fun e => match e with | .createObjectURL _ => true | _ => false).length

/-- Count of output-stream fetches in a trace. -/
def countNetGetOutput (es : List Effect) : Nat :=
  (es.filter fun e => match e with | .netGetOutput _ => true | _ => false).length

/-- Count of single-job fetches in a trace. -/
def countNetGetJob (es : List Effect) : Nat :=
  (es.filter fun e => match e with | .netGetJob _ => true | _ => false).length

/-- Stepper position the view derives from the held job snapshot. -/
def viewStep (s : ControllerState) : Int :=
  match s.job with
  | some j => getStepFromBackend (some j.status) j.stage
  | none => getStepFromBackend none none

/-- Initial controller state: the useState initial values of
PitstopPage.tsx, with no timers or blob URLs allocated yet. -/
def initialControllerState : ControllerState :=
  { file := none, fileUrl := none, jobId := none, job := none,
    status := .idle, progress := 0, logs := [], error := none,
    outputUrl := none, outputBlobUrl := none, isLoadingOutput := false,
    runHistory := [], isLoadingHistory := false, loadingJobId := none,
    page := 1, rowsPerPage := 5, totalJobs := 0,
    pollIntervalRef := none, liveIntervals := [], nextIntervalId := 0,
    liveBlobUrls := [], nextBlobId := 0 }

/-- Concrete state with one active poll loop (interval 0 installed). -/
def pollingActiveState : ControllerState :=
  { initialControllerState with jobId := some "job-1", status := .processing,
                                pollIntervalRef := some 0, liveIntervals := [0], nextIntervalId := 1 }

/-- Concrete non-terminal snapshot returned by the backend. -/
def queuedJob : PitstopJob :=
  { job_id := "job-1", status := "QUEUED", stage := some "UPLOAD",
    progress := some 0, logs := none }

/-- Stopping the poller always leaves the interval ref null. -/
theorem stopPolling_ref (s : ControllerState) :
    (stopPolling s).1.pollIntervalRef = none := by
  cases h : s.pollIntervalRef <;> simp [stopPolling, h]

/-- Stopping the poller touches only the interval bookkeeping. -/
theorem stopPolling_fields (s : ControllerState) :
    (stopPolling s).1.job = s.job ∧ (stopPolling s).1.status = s.status ∧
    (stopPolling s).1.outputBlobUrl = s.outputBlobUrl ∧
    (stopPolling s).1.liveBlobUrls = s.liveBlobUrls ∧
    (stopPolling s).1.nextBlobId = s.nextBlobId ∧
    (stopPolling s).1.nextIntervalId = s.nextIntervalId ∧
    (stopPolling s).1.error = s.error := by
  cases h : s.pollIntervalRef <;> simp [stopPolling, h]

/-- The trace of stopPolling holds no network or blob effects. -/
theorem stopPolling_trace (s : ControllerState) :
    countNetGetJob (stopPolling s).2 = 0 ∧
    countNetGetOutput (stopPolling s).2 = 0 ∧
    countCreateObjectURL (stopPolling s).2 = 0 := by
  cases h : s.pollIntervalRef <;>
    simp [stopPolling, h, countNetGetJob, countNetGetOutput, countCreateObjectURL]

/-- Releasing the output blob URL always leaves the cell null. -/
theorem cleanupBlobUrls_blob (s : ControllerState) :
    (cleanupBlobUrls s).1.outputBlobUrl = none := by
  cases h : s.outputBlobUrl <;> simp [cleanupBlobUrls, h]

/-- Releasing the output blob URL touches only the blob bookkeeping. -/
theorem cleanupBlobUrls_fields (s : ControllerState) :
    (cleanupBlobUrls s).1.job = s.job ∧ (cleanupBlobUrls s).1.status = s.status ∧
    (cleanupBlobUrls s).1.pollIntervalRef = s.pollIntervalRef ∧
    (cleanupBlobUrls s).1.nextBlobId = s.nextBlobId ∧
    (cleanupBlobUrls s).1.error = s.error := by
  cases h : s.outputBlobUrl <;> simp [cleanupBlobUrls, h]

/-- The trace of cleanupBlobUrls holds no network or creation effects. -/
theorem cleanupBlobUrls_trace (s : ControllerState) :
    countNetGetJob (cleanupBlobUrls s).2 = 0 ∧
    countNetGetOutput (cleanupBlobUrls s).2 = 0 ∧
    countCreateObjectURL (cleanupBlobUrls s).2 = 0 := by
  cases h : s.outputBlobUrl <;>
    simp [cleanupBlobUrls, h, countNetGetJob, countNetGetOutput, countCreateObjectURL]

/-- Applying a snapshot touches neither the polling nor the blob
bookkeeping nor the error cell. -/
theorem applySnapshot_bookkeeping (j : PitstopJob) (s : ControllerState) :
    (applySnapshot j s).pollIntervalRef = s.pollIntervalRef ∧
    (applySnapshot j s).liveIntervals = s.liveIntervals ∧
    (applySnapshot j s).nextIntervalId = s.nextIntervalId ∧
    (applySnapshot j s).outputBlobUrl = s.outputBlobUrl ∧
    (applySnapshot j s).liveBlobUrls = s.liveBlobUrls ∧
    (applySnapshot j s).nextBlobId = s.nextBlobId ∧
    (applySnapshot j s).error = s.error := by
  unfold applySnapshot
  cases j.progress <;> cases j.logs <;> simp <;> split <;> simp

/-- Applying a snapshot stores the job and its derived UI status. -/
theorem applySnapshot_job_status (j : PitstopJob) (s : ControllerState) :
    (applySnapshot j s).job = some j ∧
    (applySnapshot j s).status = mapBackendToUIStatus (some j.status) j.stage := by
  unfold applySnapshot
  cases j.progress <;> cases j.logs <;> simp <;> split <;> simp

/-- On a successful output fetch the trace is one output request, an
optional revocation of the previous blob URL, and exactly one blob URL
creation; the job, status and polling ref are untouched and the fresh blob
URL is installed. -/
theorem fetchOutputAsBlob_ok (id : String) (s : ControllerState) :
    (fetchOutputAsBlob id (.ok ()) s).2 =
      [Effect.netGetOutput id] ++
        (match s.outputBlobUrl with
         | some u => [Effect.revokeObjectURL u]
         | none => []) ++ [Effect.createObjectURL s.nextBlobId] ∧
    (fetchOutputAsBlob id (.ok ()) s).1.job = s.job ∧
    (fetchOutputAsBlob id (.ok ()) s).1.status = s.status ∧
    (fetchOutputAsBlob id (.ok ()) s).1.pollIntervalRef = s.pollIntervalRef ∧
    (fetchOutputAsBlob id (.ok ()) s).1.outputBlobUrl = some s.nextBlobId ∧
    (fetchOutputAsBlob id (.ok ()) s).1.jobId = s.jobId := by
  cases h : s.outputBlobUrl <;> simp [fetchOutputAsBlob, h]

/-- The output fetch never changes the polling ref, whatever its outcome. -/
theorem fetchOutputAsBlob_pollIntervalRef (id : String) (res : Except String Unit)
    (s : ControllerState) :
    (fetchOutputAsBlob id res s).1.pollIntervalRef = s.pollIntervalRef := by
  cases res with
  | error m => simp [fetchOutputAsBlob]
  | ok u => cases h : s.outputBlobUrl <;> simp [fetchOutputAsBlob, h]

/-- C8: stopping the poller and releasing the output handle are
idempotent: a second stop or release is a complete no-op (same state, no
effects), and stopping with no interval installed or releasing with no
blob URL held is already a no-op. -/
theorem stop_and_release_idempotent (s : ControllerState) :
    (stopPolling (stopPolling s).1).1 = (stopPolling s).1 ∧
    (stopPolling (stopPolling s).1).2 = [] ∧
    (cleanupBlobUrls (cleanupBlobUrls s).1).1 = (cleanupBlobUrls s).1 ∧
    (cleanupBlobUrls (cleanupBlobUrls s).1).2 = [] ∧
    (s.pollIntervalRef = none → stopPolling s = (s, [])) ∧
    (s.outputBlobUrl = none → cleanupBlobUrls s = (s, [])) := by
  refine ⟨?_, ?_, ?_, ?_, ?_, ?_⟩
  · cases h : s.pollIntervalRef <;> simp [stopPolling, h]
  · cases h : s.pollIntervalRef <;> simp [stopPolling, h]
  · cases h : s.outputBlobUrl <;> simp [cleanupBlobUrls, h]
  · cases h : s.outputBlobUrl <;> simp [cleanupBlobUrls, h]
  · intro h; simp [stopPolling, h]
  · intro h; simp [cleanupBlobUrls, h]

/-- C8 witness: the idempotence equations evaluated at the initial state,
where both guarded conjuncts apply. -/
theorem stop_and_release_idempotent_witness :
    (stopPolling (stopPolling initialControllerState).1).1 = (stopPolling initialControllerState).1 ∧
    stopPolling initialControllerState = (initialControllerState, []) ∧
    cleanupBlobUrls initialControllerState = (initialControllerState, []) := by
  have h := stop_and_release_idempotent initialControllerState
  exact ⟨h.1, h.2.2.2.2.1 rfl, h.2.2.2.2.2 rfl⟩

/-- C10: a failed history fetch leaves the window intact: items, total and
the error cell are unchanged and only the loading flag ends false. -/
theorem history_fetch_error_preserves_window (s : ControllerState) (p r : Nat) (msg : String) :
    (fetchRunHistory p r (.error msg) s).1 = { s with isLoadingHistory := false } ∧
    (fetchRunHistory p r (.error msg) s).1.runHistory = s.runHistory ∧
    (fetchRunHistory p r (.error msg) s).1.totalJobs = s.totalJobs ∧
    (fetchRunHistory p r (.error msg) s).1.error = s.error ∧
    (fetchRunHistory p r (.error msg) s).1.isLoadingHistory = false := by
  simp [fetchRunHistory]

/-- C6: a history fetch for 1-based page p with page size r requests
offset (p-1)*r and limit r, a successful response replaces the window
items and total, a rows-per-page change resets the page to 1, and after
onRowsPerPageChange 10 from page 3 with 5 rows the next fetch uses
offset 0 and limit 10. -/
theorem pagination_offset_and_reset (s : ControllerState) (p r : Nat)
    (res : Except String (List PitstopJobListItem × Nat)) (hp : 1 ≤ p) :
    ((fetchRunHistory p r res s).2 = [Effect.netGetJobs r ((p - 1) * r)]) ∧
    (∀ items total, res = .ok (items, total) →
      (fetchRunHistory p r res s).1.runHistory = items ∧
      (fetchRunHistory p r res s).1.totalJobs = total) ∧
    (∀ n, (handleRowsPerPageChange n s).page = 1 ∧
      (handleRowsPerPageChange n s).rowsPerPage = n) ∧
    (s.page = 3 → s.rowsPerPage = 5 →
      (fetchRunHistory (handleRowsPerPageChange 10 s).page
        (handleRowsPerPageChange 10 s).rowsPerPage res
        (handleRowsPerPageChange 10 s)).2 = [Effect.netGetJobs 10 0]) := by
  refine ⟨?_, ?_, ?_, ?_⟩
  · cases res <;> simp [fetchRunHistory]
  · intro items total h
    subst h
    simp [fetchRunHistory]
  · intro n
    simp [handleRowsPerPageChange]
  · intro h3 h5
    cases res <;> simp [fetchRunHistory, handleRowsPerPageChange]

/-- C6 witness: page 3 with 5 rows requests offset 10 and limit 5, and the
scenario-E state after onRowsPerPageChange 10 requests offset 0, limit 10. -/
theorem pagination_offset_and_reset_witness :
    (fetchRunHistory 3 5 (.ok ([], 0)) { initialControllerState with page := 3 }).2 =
      [Effect.netGetJobs 5 10] ∧
    (fetchRunHistory (handleRowsPerPageChange 10 { initialControllerState with page := 3 }).page
      (handleRowsPerPageChange 10 { initialControllerState with page := 3 }).rowsPerPage
      (.ok ([], 0))
      (handleRowsPerPageChange 10 { initialControllerState with page := 3 })).2 =
      [Effect.netGetJobs 10 0] := by
  have h := pagination_offset_and_reset { initialControllerState with page := 3 } 3 5
    (.ok ([], 0)) (by decide)
  exact ⟨h.1, h.2.2.2 rfl rfl⟩

/-- Concrete terminal snapshot returned by the backend. -/
def completeJob : PitstopJob :=
  { job_id := "job-1", status := "COMPLETE", stage := some "COMPLETE",
    progress := some 1, logs := some ["[INFO] done"] }

/-- Concrete COMPLETE history summary with output. -/
def completeListItem : PitstopJobListItem :=
  { job_id := "h1", status := "COMPLETE", has_output := true }

/-- C2 counterexample: starting the poller from a state whose loop 0 is
still active (initial tick non-terminal) leaves both the old interval 0
and the fresh interval 1 live, and the trace clears nothing — two poll
loops run concurrently, refuting the claim that start first stops the
previous loop. -/
theorem startPolling_leaks_previous_loop :
    (startPolling "job-1" (.ok queuedJob) (.ok ()) pollingActiveState).1.liveIntervals = [0, 1] ∧
    ¬((startPolling "job-1" (.ok queuedJob) (.ok ()) pollingActiveState).1.liveIntervals.length ≤ 1) ∧
    (startPolling "job-1" (.ok queuedJob) (.ok ()) pollingActiveState).2 =
      [Effect.netGetJob "job-1", Effect.setIntervalE 1] := by
  refine ⟨by decide, by decide, by decide⟩

/-- C2 (amended): startPolling does not itself stop a previously active
loop: when the initial tick is non-terminal and succeeds, it installs a
fresh interval in the ref, leaves every previously live interval (the
active one included) live, and emits no clearInterval effect; the previous
loop is leaked rather than stopped. -/
theorem startPolling_does_not_stop_previous (s : ControllerState) (id : String)
    (j : PitstopJob) (br : Except String Unit) (k : Nat)
    (href : s.pollIntervalRef = some k) (hk : k ∈ s.liveIntervals)
    (hc : j.status ≠ "COMPLETE") (hf : j.status ≠ "FAILED") :
    (startPolling id (.ok j) br s).1.pollIntervalRef = some s.nextIntervalId ∧
    (startPolling id (.ok j) br s).1.liveIntervals = s.liveIntervals ++ [s.nextIntervalId] ∧
    k ∈ (startPolling id (.ok j) br s).1.liveIntervals ∧
    ∀ e ∈ (startPolling id (.ok j) br s).2, ∀ i, e ≠ Effect.clearIntervalE i := by
  have hb := applySnapshot_bookkeeping j s
  have hpoll : pollJobStatus id (.ok j) br s = (applySnapshot j s, [Effect.netGetJob id]) := by
    simp [pollJobStatus, hc, hf]
  refine ⟨?_, ?_, ?_, ?_⟩
  · simp [startPolling, hpoll, hb.2.2.1]
  · simp [startPolling, hpoll, hb.2.1, hb.2.2.1]
  · simp [startPolling, hpoll, hb.2.1, hb.2.2.1]
    exact Or.inl hk
  · intro e he i
    simp [startPolling, hpoll] at he
    rcases he with h | h <;> simp [h]

/-- C2 amended witness: from the concrete state with loop 0 active,
startPolling keeps interval 0 live and installs interval 1. -/
theorem startPolling_does_not_stop_previous_witness :
    (startPolling "job-1" (.ok queuedJob) (.ok ()) pollingActiveState).1.pollIntervalRef =
      some pollingActiveState.nextIntervalId ∧
    (startPolling "job-1" (.ok queuedJob) (.ok ()) pollingActiveState).1.liveIntervals =
      pollingActiveState.liveIntervals ++ [pollingActiveState.nextIntervalId] ∧
    0 ∈ (startPolling "job-1" (.ok queuedJob) (.ok ()) pollingActiveState).1.liveIntervals := by
  have h := startPolling_does_not_stop_previous pollingActiveState "job-1" queuedJob
    (.ok ()) 0 rfl (by decide) (by decide) (by decide)
  exact ⟨h.1, h.2.1, h.2.2.1⟩

/-- C3 counterexample: a failed status fetch during an active loop stops
polling even though no snapshot with status COMPLETE or FAILED was
delivered and no explicit cancellation happened: the ref is cleared, the
error cell is set and the UI status is still the non-terminal processing. -/
theorem poll_error_stops_loop :
    pollingActiveState.pollIntervalRef = some 0 ∧
    (pollJobStatus "job-1" (.error "network down") (.ok ()) pollingActiveState).1.pollIntervalRef = none ∧
    (pollJobStatus "job-1" (.error "network down") (.ok ()) pollingActiveState).1.error =
      some "network down" ∧
    (pollJobStatus "job-1" (.error "network down") (.ok ()) pollingActiveState).1.status =
      UIJobStatus.processing := by
  refine ⟨rfl, by decide, by decide, by decide⟩

/-- C3 (amended): with a loop active, a poll tick terminates polling iff
the fetch failed or the fetched snapshot has status COMPLETE or FAILED;
explicit cancellation always clears the loop. -/
theorem polling_stop_conditions (s : ControllerState) (id : String) (k : Nat)
    (href : s.pollIntervalRef = some k) (fr : Except String PitstopJob)
    (br : Except String Unit) :
    ((pollJobStatus id fr br s).1.pollIntervalRef = none ↔
      (∃ msg, fr = .error msg) ∨
      ∃ j, fr = .ok j ∧ (j.status = "COMPLETE" ∨ j.status = "FAILED")) ∧
    (stopPolling s).1.pollIntervalRef = none := by
  refine ⟨?_, stopPolling_ref s⟩
  cases fr with
  | error m =>
      simp [pollJobStatus, stopPolling_ref]
  | ok j =>
      by_cases hc : j.status = "COMPLETE"
      · simp [pollJobStatus, hc, fetchOutputAsBlob_pollIntervalRef, stopPolling_ref]
      · by_cases hf : j.status = "FAILED"
        · simp [pollJobStatus, hc, hf, stopPolling_ref]
        · simp [pollJobStatus, hc, hf, (applySnapshot_bookkeeping j s).1, href]

/-- C3 amended witness: the stop condition instantiated at the concrete
active state with a non-terminal snapshot. -/
theorem polling_stop_conditions_witness :
    ((pollJobStatus "job-1" (.ok queuedJob) (.ok ()) pollingActiveState).1.pollIntervalRef = none ↔
      (∃ msg, (Except.ok queuedJob : Except String PitstopJob) = .error msg) ∨
      ∃ j, (Except.ok queuedJob : Except String PitstopJob) = .ok j ∧
        (j.status = "COMPLETE" ∨ j.status = "FAILED")) ∧
    (stopPolling pollingActiveState).1.pollIntervalRef = none :=
  polling_stop_conditions pollingActiveState "job-1" 0 rfl (.ok queuedJob) (.ok ())


/-- State update performed by the COMPLETE branch of `pollJobStatus` just
before stopping the loop: snapshot applied, output URL set, progress
forced to 100. -/
def completeUpdate (id : String) (j : PitstopJob) (s : ControllerState) : ControllerState :=
  { applySnapshot j s with outputUrl := some (getOutputUrl id), progress := 100 }

/-- The COMPLETE branch of `pollJobStatus` decomposes as the complete
update, then stopPolling, then the output blob fetch. -/
theorem pollJobStatus_complete_split (id : String) (j : PitstopJob)
    (br : Except String Unit) (s : ControllerState) (hst : j.status = "COMPLETE") :
    pollJobStatus id (.ok j) br s =
      ((fetchOutputAsBlob id br (stopPolling (completeUpdate id j s)).1).1,
       [Effect.netGetJob id] ++ (stopPolling (completeUpdate id j s)).2 ++
         (fetchOutputAsBlob id br (stopPolling (completeUpdate id j s)).1).2) := by
  simp [pollJobStatus, hst, completeUpdate]

/-- The complete update keeps the stored job and derives the UI status
from the snapshot. -/
theorem completeUpdate_fields (id : String) (j : PitstopJob) (s : ControllerState) :
    (completeUpdate id j s).job = some j ∧
    (completeUpdate id j s).status = mapBackendToUIStatus (some j.status) j.stage := by
  have h := applySnapshot_job_status j s
  exact ⟨h.1, h.2⟩

/-- A successful output fetch issues exactly one output request and
creates exactly one blob URL. -/
theorem fetchOutputAsBlob_ok_counts (id : String) (s : ControllerState) :
    countNetGetOutput (fetchOutputAsBlob id (.ok ()) s).2 = 1 ∧
    countCreateObjectURL (fetchOutputAsBlob id (.ok ()) s).2 = 1 := by
  cases h : s.outputBlobUrl <;>
    simp [fetchOutputAsBlob, h, countNetGetOutput, countCreateObjectURL]

/-- C4: when a poll tick during an active loop returns a snapshot with
status COMPLETE (and the output fetch succeeds), polling stops, the output
stream is fetched exactly once and wrapped in exactly one fresh blob URL,
the derived UI status is complete, and the stepper position derived from
the stored job is 5. -/
theorem complete_tick_stops_and_acquires_once (s : ControllerState) (id : String)
    (j : PitstopJob) (k : Nat) (href : s.pollIntervalRef = some k)
    (hst : j.status = "COMPLETE") :
    (pollJobStatus id (.ok j) (.ok ()) s).1.pollIntervalRef = none ∧
    countNetGetOutput (pollJobStatus id (.ok j) (.ok ()) s).2 = 1 ∧
    countCreateObjectURL (pollJobStatus id (.ok j) (.ok ()) s).2 = 1 ∧
    (pollJobStatus id (.ok j) (.ok ()) s).1.status = UIJobStatus.complete ∧
    viewStep (pollJobStatus id (.ok j) (.ok ()) s).1 = 5 := by
  have hmap : mapBackendToUIStatus (some j.status) j.stage = .complete := by
    rw [hst]; rfl
  have hstep5 : getStepFromBackend (some j.status) j.stage = 5 := by
    rw [hst]; rfl
  rw [pollJobStatus_complete_split id j (.ok ()) s hst]
  have hfo := fetchOutputAsBlob_ok id (stopPolling (completeUpdate id j s)).1
  have hfc := fetchOutputAsBlob_ok_counts id (stopPolling (completeUpdate id j s)).1
  have hsf := stopPolling_fields (completeUpdate id j s)
  have hsc := stopPolling_trace (completeUpdate id j s)
  have hcf := completeUpdate_fields id j s
  refine ⟨?_, ?_, ?_, ?_, ?_⟩
  · rw [fetchOutputAsBlob_pollIntervalRef, stopPolling_ref]
  · simp only [countNetGetOutput, List.filter_append, List.length_append] at *
    simp [countNetGetOutput, hsc.2.1, hfc.1]
  · simp only [countCreateObjectURL, List.filter_append, List.length_append] at *
    simp [countCreateObjectURL, hsc.2.2, hfc.2]
  · rw [hfo.2.2.1, hsf.2.1, hcf.2, hmap]
  · rw [viewStep, hfo.2.1, hsf.1, hcf.1]
    exact hstep5

/-- C4 witness: the COMPLETE tick evaluated at the concrete active state. -/
theorem complete_tick_stops_and_acquires_once_witness :
    (pollJobStatus "job-1" (.ok completeJob) (.ok ()) pollingActiveState).1.pollIntervalRef = none ∧
    countNetGetOutput (pollJobStatus "job-1" (.ok completeJob) (.ok ()) pollingActiveState).2 = 1 ∧
    countCreateObjectURL (pollJobStatus "job-1" (.ok completeJob) (.ok ()) pollingActiveState).2 = 1 ∧
    (pollJobStatus "job-1" (.ok completeJob) (.ok ()) pollingActiveState).1.status =
      UIJobStatus.complete ∧
    viewStep (pollJobStatus "job-1" (.ok completeJob) (.ok ()) pollingActiveState).1 = 5 :=
  complete_tick_stops_and_acquires_once pollingActiveState "job-1" completeJob 0 rfl rfl

/-- The job-fetch count is additive over trace concatenation. -/
theorem countNetGetJob_append (a b : List Effect) :
    countNetGetJob (a ++ b) = countNetGetJob a + countNetGetJob b := by
  simp [countNetGetJob, List.filter_append]

/-- The output-fetch count is additive over trace concatenation. -/
theorem countNetGetOutput_append (a b : List Effect) :
    countNetGetOutput (a ++ b) = countNetGetOutput a + countNetGetOutput b := by
  simp [countNetGetOutput, List.filter_append]

/-- The blob-creation count is additive over trace concatenation. -/
theorem countCreateObjectURL_append (a b : List Effect) :
    countCreateObjectURL (a ++ b) = countCreateObjectURL a + countCreateObjectURL b := by
  simp [countCreateObjectURL, List.filter_append]

/-- The output fetch issues no job fetch. -/
theorem fetchOutputAsBlob_netjob (id : String) (res : Except String Unit) (s : ControllerState) :
    countNetGetJob (fetchOutputAsBlob id res s).2 = 0 := by
  cases res with
  | error m => simp [fetchOutputAsBlob, countNetGetJob]
  | ok u => cases h : s.outputBlobUrl <;> simp [fetchOutputAsBlob, h, countNetGetJob]

/-- The loaded-state replacement stores the loaded job, its derived
status, and the summary id. -/
theorem loadedUpdate_fields (hj : PitstopJobListItem) (fullJob : PitstopJob) (x : ControllerState) :
    (loadedUpdate hj fullJob x).job = some fullJob ∧
    (loadedUpdate hj fullJob x).status = mapBackendToUIStatus (some fullJob.status) fullJob.stage ∧
    (loadedUpdate hj fullJob x).jobId = some hj.job_id := by
  exact ⟨rfl, rfl, rfl⟩

/-- The success path of `handleLoadJob` decomposes as stop, cleanup, the
loaded-state replacement, and the output blob fetch. -/
theorem handleLoadJob_ok_split (hj : PitstopJobListItem) (fullJob : PitstopJob)
    (br : Except String Unit) (s : ControllerState)
    (h1 : hj.status = "COMPLETE") (h2 : hj.has_output = true) :
    handleLoadJob hj (.ok fullJob) br s =
      ({ (fetchOutputAsBlob hj.job_id br (loadedUpdate hj fullJob (cleanupBlobUrls (stopPolling { s with loadingJobId := some hj.job_id }).1).1)).1 with loadingJobId := none },
       (stopPolling { s with loadingJobId := some hj.job_id }).2 ++
         (cleanupBlobUrls (stopPolling { s with loadingJobId := some hj.job_id }).1).2 ++
         [Effect.netGetJob hj.job_id] ++
         (fetchOutputAsBlob hj.job_id br (loadedUpdate hj fullJob (cleanupBlobUrls (stopPolling { s with loadingJobId := some hj.job_id }).1).1)).2) := by
  simp [handleLoadJob, h1, h2]

/-- C5: a history summary that is not COMPLETE or has no output makes
handleLoadJob a strict no-op (state unchanged, no effects, hence no
network call and no error); a COMPLETE summary with output fetches the
full job exactly once, acquires exactly one output handle, and sets the
stored job, UI status and derived stepper position from the loaded job
fields. -/
theorem loadHistorical_guard_and_load (hj : PitstopJobListItem)
    (fr : Except String PitstopJob) (br : Except String Unit) (s : ControllerState) :
    ((hj.status ≠ "COMPLETE" ∨ hj.has_output = false) →
      handleLoadJob hj fr br s = (s, [])) ∧
    (∀ fullJob, hj.status = "COMPLETE" → hj.has_output = true →
      fr = Except.ok fullJob → br = Except.ok () →
      countNetGetJob (handleLoadJob hj fr br s).2 = 1 ∧
      countNetGetOutput (handleLoadJob hj fr br s).2 = 1 ∧
      countCreateObjectURL (handleLoadJob hj fr br s).2 = 1 ∧
      (handleLoadJob hj fr br s).1.job = some fullJob ∧
      (handleLoadJob hj fr br s).1.status =
        mapBackendToUIStatus (some fullJob.status) fullJob.stage ∧
      viewStep (handleLoadJob hj fr br s).1 =
        getStepFromBackend (some fullJob.status) fullJob.stage ∧
      (handleLoadJob hj fr br s).1.jobId = some hj.job_id) := by
  constructor
  · intro h
    rw [handleLoadJob, if_pos h]
  · intro fullJob h1 h2 hfr hbr
    subst hfr; subst hbr
    rw [handleLoadJob_ok_split hj fullJob (.ok ()) s h1 h2]
    have hstop := stopPolling_trace { s with loadingJobId := some hj.job_id }
    have hclean := cleanupBlobUrls_trace (stopPolling { s with loadingJobId := some hj.job_id }).1
    have hfc := fetchOutputAsBlob_ok_counts hj.job_id (loadedUpdate hj fullJob (cleanupBlobUrls (stopPolling { s with loadingJobId := some hj.job_id }).1).1)
    have hfj := fetchOutputAsBlob_netjob hj.job_id (.ok ()) (loadedUpdate hj fullJob (cleanupBlobUrls (stopPolling { s with loadingJobId := some hj.job_id }).1).1)
    have hfo := fetchOutputAsBlob_ok hj.job_id (loadedUpdate hj fullJob (cleanupBlobUrls (stopPolling { s with loadingJobId := some hj.job_id }).1).1)
    have hlf := loadedUpdate_fields hj fullJob (cleanupBlobUrls (stopPolling { s with loadingJobId := some hj.job_id }).1).1
    refine ⟨?_, ?_, ?_, ?_, ?_, ?_, ?_⟩
    · simp only [countNetGetJob_append, hstop.1, hclean.1, hfj]
      simp [countNetGetJob]
    · simp only [countNetGetOutput_append, hstop.2.1, hclean.2.1, hfc.1]
      simp [countNetGetOutput]
    · simp only [countCreateObjectURL_append, hstop.2.2, hclean.2.2, hfc.2]
      simp [countCreateObjectURL]
    · show (fetchOutputAsBlob hj.job_id (.ok ()) (loadedUpdate hj fullJob (cleanupBlobUrls (stopPolling { s with loadingJobId := some hj.job_id }).1).1)).1.job = some fullJob
      rw [hfo.2.1, hlf.1]
    · show (fetchOutputAsBlob hj.job_id (.ok ()) (loadedUpdate hj fullJob (cleanupBlobUrls (stopPolling { s with loadingJobId := some hj.job_id }).1).1)).1.status = mapBackendToUIStatus (some fullJob.status) fullJob.stage
      rw [hfo.2.2.1, hlf.2.1]
    · rw [viewStep]
      show (match (fetchOutputAsBlob hj.job_id (.ok ()) (loadedUpdate hj fullJob (cleanupBlobUrls (stopPolling { s with loadingJobId := some hj.job_id }).1).1)).1.job with
        | some jb => getStepFromBackend (some jb.status) jb.stage
        | none => getStepFromBackend none none) =
        getStepFromBackend (some fullJob.status) fullJob.stage
      rw [hfo.2.1, hlf.1]
    · show (fetchOutputAsBlob hj.job_id (.ok ()) (loadedUpdate hj fullJob (cleanupBlobUrls (stopPolling { s with loadingJobId := some hj.job_id }).1).1)).1.jobId = some hj.job_id
      rw [hfo.2.2.2.2.2, hlf.2.2]

/-- Concrete non-loadable history summary (still processing). -/
def processingListItem : PitstopJobListItem :=
  { job_id := "h2", status := "PROCESSING", has_output := true }

/-- C5 witness: a PROCESSING summary is a strict no-op, and the COMPLETE
summary with output issues exactly one job fetch. -/
theorem loadHistorical_guard_and_load_witness :
    handleLoadJob processingListItem (.ok completeJob) (.ok ()) pollingActiveState =
      (pollingActiveState, []) ∧
    countNetGetJob (handleLoadJob completeListItem (.ok completeJob) (.ok ()) pollingActiveState).2 = 1 := by
  have ha := loadHistorical_guard_and_load processingListItem (.ok completeJob) (.ok ()) pollingActiveState
  have hb := loadHistorical_guard_and_load completeListItem (.ok completeJob) (.ok ()) pollingActiveState
  exact ⟨ha.1 (by decide), (hb.2 completeJob rfl rfl rfl rfl).1⟩

/-- C7 counterexample: a non-2xx response whose body carries the detail
field with the empty string does not surface that detail — the JavaScript
truthiness fallback produces the generic status-derived message instead. -/
theorem createJob_empty_detail_not_surfaced :
    createJob { ok := false, statusCode := 400, statusText := "Bad Request", errorDetail := some "", job := queuedJob } =
      .error "Upload failed: 400 Bad Request" ∧
    "Upload failed: 400 Bad Request" ≠ "" := by
  constructor
  · rfl
  · decide

/-- C7 (amended): on a non-2xx response, createJob surfaces the body
detail message when it is present and non-empty, and otherwise (detail
absent or the empty string, including an unparseable body) the generic
message derived from the status code and text. -/
theorem createJob_error_message_spec (resp : HttpResponse) (hok : resp.ok = false) :
    (∀ d, resp.errorDetail = some d → d ≠ "" → createJob resp = .error d) ∧
    (resp.errorDetail = none ∨ resp.errorDetail = some "" →
      createJob resp = .error ("Upload failed: " ++ toString resp.statusCode ++ " " ++ resp.statusText)) := by
  constructor
  · intro d hd hne
    simp [createJob, hok, createJobErrorMessage, hd, hne]
  · rintro (hd | hd) <;> simp [createJob, hok, createJobErrorMessage, hd]

/-- C7 amended witness: a non-empty detail is surfaced verbatim, and an
absent detail yields the generic status-derived message. -/
theorem createJob_error_message_spec_witness :
    createJob { ok := false, statusCode := 500, statusText := "Internal Server Error", errorDetail := some "disk full", job := queuedJob } =
      .error "disk full" ∧
    createJob { ok := false, statusCode := 500, statusText := "Internal Server Error", errorDetail := none, job := queuedJob } =
      .error "Upload failed: 500 Internal Server Error" := by
  have h1 := createJob_error_message_spec { ok := false, statusCode := 500, statusText := "Internal Server Error", errorDetail := some "disk full", job := queuedJob } rfl
  have h2 := createJob_error_message_spec { ok := false, statusCode := 500, statusText := "Internal Server Error", errorDetail := none, job := queuedJob } rfl
  refine ⟨h1.1 "disk full" rfl (by decide), ?_⟩
  have := h2.2 (Or.inl rfl)
  simpa using this
